import Mathlib

/-
Verification of the coordinate-indexing and dataset-catalog core of
HWs/HW2/visualize.py (a climate-data visualization script).

The embedding follows the Python source closely:
  - Python floats carrying latitude/longitude values are modelled as
    rationals, and the Python builtin int() (truncation toward zero) as
    pyInt below.
  - xarray/numpy arrays are modelled as Lean lists; positional indexing
    with a possibly negative integer is pyIndex, and slice(a, b) range
    extraction is pySlice, both with full Python semantics.
  - Raising RuntimeError is modelled by returning Except.error with a
    constructor naming the diagnostic the source prints.
-/

namespace ClimateSystem

/-- Python builtin int() applied to a rational: truncation toward zero. -/
def pyInt (q : ℚ) : ℤ := if 0 ≤ q then ⌊q⌋ else ⌈q⌉

/-- Normalization of one endpoint of a Python slice(a, b) against a list of
length n: a negative endpoint counts from the end and clamps at 0, a
nonnegative endpoint clamps at n. -/
def pySliceBound (n : ℕ) (i : ℤ) : ℕ :=
  if i < 0 then ((n : ℤ) + i).toNat else min i.toNat n

/-- Python xs[a:b] (slice with step 1). -/
def pySlice {α : Type} (xs : List α) (a b : ℤ) : List α :=
  (xs.drop (pySliceBound xs.length a)).take
    (pySliceBound xs.length b - pySliceBound xs.length a)

/-- Python xs[i] positional indexing with an integer index: a negative index
counts from the end; an index out of range yields none (IndexError). -/
def pyIndex {α : Type} (xs : List α) (i : ℤ) : Option α :=
  let j : ℤ := if 0 ≤ i then i else (xs.length : ℤ) + i
  if 0 ≤ j then xs.get? j.toNat else none

/-- DataSet.to_lat_index from the source: int((90 - lat) * 4). -/
def to_lat_index (lat : ℚ) : ℤ := pyInt ((90 - lat) * 4)

/-- DataSet.to_lon_index from the source: int((lon + 180) * 4). -/
def to_lon_index (lon : ℚ) : ℤ := pyInt ((lon + 180) * 4)

/-- DataSet.get_mask from the source: clamp the requested region to the
global extent and convert it to a latitude index range and a longitude
index range (each a slice start/stop pair, stop exclusive). -/
def get_mask (lat lon dlat dlon : ℚ) : (ℤ × ℤ) × (ℤ × ℤ) :=
  let lat_min := max (lat - dlat) (-90)
  let lat_max := min (lat + dlat) 90
  let lon_min := max (lon - dlon) (-180)
  let lon_max := min (lon + dlon) 180
  ((to_lat_index lat_max, to_lat_index lat_min),
   (to_lon_index lon_min, to_lon_index lon_max))

theorem pyInt_of_nonneg {q : ℚ} (h : 0 ≤ q) : pyInt q = ⌊q⌋ := if_pos h

theorem to_lat_index_eq_floor {lat : ℚ} (h : lat ≤ 90) :
    to_lat_index lat = ⌊(90 - lat) * 4⌋ := by
  have h0 : (0 : ℚ) ≤ (90 - lat) * 4 := by nlinarith
  simp [to_lat_index, pyInt_of_nonneg h0]

theorem to_lon_index_eq_floor {lon : ℚ} (h : -180 ≤ lon) :
    to_lon_index lon = ⌊(lon + 180) * 4⌋ := by
  have h0 : (0 : ℚ) ≤ (lon + 180) * 4 := by nlinarith
  simp [to_lon_index, pyInt_of_nonneg h0]

/-- C1 counterexample: at latitude -90 (a valid latitude), the row index is
720, which exceeds the bound 90 * resolution_factor = 360 asserted by the
claim. -/
theorem C1_counterexample :
    (-90 : ℚ) ≤ -90 ∧ (-90 : ℚ) ≤ 90 ∧
      to_lat_index (-90) = 720 ∧ ¬ to_lat_index (-90) ≤ 90 * 4 := by
  refine ⟨le_refl _, by norm_num, ?_, ?_⟩ <;> norm_num [to_lat_index, pyInt]

/-- C1 (amended): for latitude in [-90, 90] the row index lies in
[0, 180 * resolution_factor] = [0, 720]; for longitude in [-180, 180] the
column index lies in [0, 360 * resolution_factor] = [0, 1440]. -/
theorem C1_index_bounds :
    (∀ lat : ℚ, -90 ≤ lat → lat ≤ 90 →
      0 ≤ to_lat_index lat ∧ to_lat_index lat ≤ 180 * 4) ∧
    (∀ lon : ℚ, -180 ≤ lon → lon ≤ 180 →
      0 ≤ to_lon_index lon ∧ to_lon_index lon ≤ 360 * 4) := by
  constructor
  · intro lat h1 h2
    rw [to_lat_index_eq_floor h2]
    have h0 : (0 : ℚ) ≤ (90 - lat) * 4 := by nlinarith
    have h720 : (90 - lat) * 4 ≤ ((720 : ℤ) : ℚ) := by push_cast; nlinarith
    refine ⟨Int.floor_nonneg.mpr h0, ?_⟩
    have := Int.floor_le_floor h720
    rwa [Int.floor_intCast] at this
  · intro lon h1 h2
    rw [to_lon_index_eq_floor h1]
    have h0 : (0 : ℚ) ≤ (lon + 180) * 4 := by nlinarith
    have h1440 : (lon + 180) * 4 ≤ ((1440 : ℤ) : ℚ) := by push_cast; nlinarith
    refine ⟨Int.floor_nonneg.mpr h0, ?_⟩
    have := Int.floor_le_floor h1440
    rwa [Int.floor_intCast] at this

/-- C1 witness: the amended bounds evaluated at latitude 45 and
longitude -30. -/
theorem C1_index_bounds_witness :
    (0 ≤ to_lat_index 45 ∧ to_lat_index 45 ≤ 180 * 4) ∧
    (0 ≤ to_lon_index (-30) ∧ to_lon_index (-30) ≤ 360 * 4) :=
  ⟨C1_index_bounds.1 45 (by norm_num) (by norm_num),
   C1_index_bounds.2 (-30) (by norm_num) (by norm_num)⟩

/-- C8: the latitude-to-row-index map is monotonically non-increasing on
[-90, 90]: a strictly smaller latitude never gets a strictly smaller row
index (north is row 0). -/
theorem C8_lat_index_antitone (lat1 lat2 : ℚ) (h1 : -90 ≤ lat1)
    (h2 : lat1 < lat2) (h3 : lat2 ≤ 90) :
    to_lat_index lat2 ≤ to_lat_index lat1 := by
  rw [to_lat_index_eq_floor h3, to_lat_index_eq_floor (le_of_lt (lt_of_lt_of_le h2 h3))]
  exact Int.floor_le_floor (by nlinarith)

/-- C8 witness: the monotonicity theorem applied at latitudes 10 and 20. -/
theorem C8_lat_index_antitone_witness :
    to_lat_index 20 ≤ to_lat_index 10 :=
  C8_lat_index_antitone 10 20 (by norm_num) (by norm_num) (by norm_num)

/-- C5: get_mask(40, -90, 10, 10) yields the row range [160, 240) (start
comes from the maximum latitude 50) and the column range [320, 400), both
inside the index bounds [0, 720) and [0, 1440). -/
theorem C5_region_scenario :
    get_mask 40 (-90) 10 10 = ((160, 240), (320, 400)) ∧
    (0 : ℤ) ≤ 160 ∧ (240 : ℤ) ≤ 720 ∧ (0 : ℤ) ≤ 320 ∧ (400 : ℤ) ≤ 1440 := by
  norm_num [get_mask, to_lat_index, to_lon_index, pyInt]

/-- C7: when the half extents push every edge of the requested region past
the global extent, get_mask returns the same ranges as a region whose edges
are exactly the global edges (center 0, 0 with half extents 90 and 180):
clamping saturates rather than wraps. -/
theorem C7_clamp_saturates (lat lon dlat dlon : ℚ)
    (h1 : lat - dlat ≤ -90) (h2 : 90 ≤ lat + dlat)
    (h3 : lon - dlon ≤ -180) (h4 : 180 ≤ lon + dlon) :
    get_mask lat lon dlat dlon = get_mask 0 0 90 180 := by
  simp only [get_mask, max_eq_right h1, min_eq_right h2, max_eq_right h3,
    min_eq_right h4]
  norm_num

/-- C7 witness: a region centered at (10, 20) with half extents 200 and 400
collapses to the whole-globe ranges. -/
theorem C7_clamp_saturates_witness :
    get_mask 10 20 200 400 = get_mask 0 0 90 180 :=
  C7_clamp_saturates 10 20 200 400 (by norm_num) (by norm_num) (by norm_num)
    (by norm_num)

/-- The diagnostics getMesh can raise (each a RuntimeError in the source),
plus the IndexError the underlying array raises on a bad time index. -/
inductive MeshError
  | outOfRange
  | ambiguousRegion
  | indexError
deriving DecidableEq

/-- DataSet from the source: a decoded grib dataset holding the latitude
and longitude coordinate arrays, the field array indexed by
[time, lat, lon], the declared number of time steps, and the climate
variable name. -/
structure DataSet where
  latitude : List ℚ
  longitude : List ℚ
  field : List (List (List ℚ))
  time_steps : ℤ
  data_var : String

/-- The triple (latitude mesh, longitude mesh, field mesh) getMesh returns. -/
abbrev Mesh := List ℚ × List ℚ × List (List ℚ)

/-- DataSet.getMesh from the source: first the time-step bound check, then
the region dispatch - all four of lat/lon/dlat/dlon present selects the
masked region, all four absent selects the whole grid, any other mix raises
the region-ambiguity error. -/
def getMesh (ds : DataSet) (time_step : ℤ)
    (lat lon dlat dlon : Option ℚ) : Except MeshError Mesh :=
  if ds.time_steps ≤ time_step then .error .outOfRange
  else
    match lat, lon, dlat, dlon with
    | some la, some lo, some dla, some dlo =>
      let m := get_mask la lo dla dlo
      match pyIndex ds.field time_step with
      | none => .error .indexError
      | some layer =>
        .ok (pySlice ds.latitude m.1.1 m.1.2, pySlice ds.longitude m.2.1 m.2.2,
          (pySlice layer m.1.1 m.1.2).map fun row => pySlice row m.2.1 m.2.2)
    | none, none, none, none =>
      match pyIndex ds.field time_step with
      | none => .error .indexError
      | some layer => .ok (ds.latitude, ds.longitude, layer)
    | _, _, _, _ => .error .ambiguousRegion

/-- How many of the four region arguments were supplied. -/
def suppliedCount (lat lon dlat dlon : Option ℚ) : ℕ :=
  (if lat.isSome then 1 else 0) + (if lon.isSome then 1 else 0) +
    (if dlat.isSome then 1 else 0) + (if dlon.isSome then 1 else 0)

theorem getMesh_of_in_range {ds : DataSet} {t : ℤ} (ht : t < ds.time_steps)
    (lat lon dlat dlon : Option ℚ) :
    getMesh ds t lat lon dlat dlon ≠ .error .outOfRange := by
  have hlt : ¬ ds.time_steps ≤ t := not_le.mpr ht
  rcases lat with _ | la <;> rcases lon with _ | lo <;>
      rcases dlat with _ | dla <;> rcases dlon with _ | dlo <;>
    cases hpi : pyIndex ds.field t <;>
    simp [getMesh, hlt, hpi]

/-- C3: when the time step is in range, getMesh raises the
region-ambiguity error exactly when the number of supplied region
arguments is strictly between 0 and 4. -/
theorem C3_ambiguous_region (ds : DataSet) (t : ℤ)
    (lat lon dlat dlon : Option ℚ) (ht : t < ds.time_steps) :
    getMesh ds t lat lon dlat dlon = .error .ambiguousRegion ↔
      suppliedCount lat lon dlat dlon ≠ 0 ∧
        suppliedCount lat lon dlat dlon ≠ 4 := by
  have hlt : ¬ ds.time_steps ≤ t := not_le.mpr ht
  rcases lat with _ | la <;> rcases lon with _ | lo <;>
      rcases dlat with _ | dla <;> rcases dlon with _ | dlo <;>
    cases hpi : pyIndex ds.field t <;>
    simp [getMesh, suppliedCount, hlt, hpi]

/-- C3 witness: on a one-time-step dataset with only the latitude supplied,
getMesh at time 0 settles the ambiguity equivalence. -/
theorem C3_ambiguous_region_witness :
    getMesh ⟨[0], [0], [[[0]]], 1, "t2m"⟩ 0 (some 40) none none none =
        .error .ambiguousRegion ↔
      suppliedCount (some 40) none none none ≠ 0 ∧
        suppliedCount (some 40) none none none ≠ 4 :=
  C3_ambiguous_region ⟨[0], [0], [[[0]]], 1, "t2m"⟩ 0 (some 40) none none none
    (by norm_num)

/-- A concrete decoded grid standing in for the 100m u-component wind file
of the usage example: 2 latitude rows, 2 longitude columns, 24 time layers. -/
def u100grid : DataSet :=
  ⟨[90, 89.75], [-180, -179.75], List.replicate 24 [[0, 0], [0, 0]], 24, "u100"⟩

/-- C4: getMesh raises the out-of-bound time-step error exactly when the
requested time step reaches the declared count; in particular, requesting
time step 24 of a dataset declared with 24 time steps fails that way. -/
theorem C4_out_of_range :
    (∀ (ds : DataSet) (t : ℤ) (lat lon dlat dlon : Option ℚ),
      getMesh ds t lat lon dlat dlon = .error .outOfRange ↔
        ds.time_steps ≤ t) ∧
    getMesh u100grid 24 none none none none = .error .outOfRange := by
  refine ⟨fun ds t lat lon dlat dlon => ?_, rfl⟩
  constructor
  · intro h
    by_contra hc
    exact getMesh_of_in_range (not_le.mp hc) lat lon dlat dlon h
  · intro h
    rcases lat with _ | la <;> rcases lon with _ | lo <;>
        rcases dlat with _ | dla <;> rcases dlon with _ | dlo <;>
      simp [getMesh, h]

/-- C10: the time-step bound check precedes region validation: an
out-of-range time step combined with a partially specified region raises
the out-of-range error, never the region-ambiguity error. -/
theorem C10_time_check_precedence (ds : DataSet) (t : ℤ)
    (lat lon dlat dlon : Option ℚ) (ht : ds.time_steps ≤ t)
    (hmix : suppliedCount lat lon dlat dlon ≠ 0 ∧
      suppliedCount lat lon dlat dlon ≠ 4) :
    getMesh ds t lat lon dlat dlon = .error .outOfRange ∧
      getMesh ds t lat lon dlat dlon ≠ .error .ambiguousRegion := by
  rcases lat with _ | la <;> rcases lon with _ | lo <;>
      rcases dlat with _ | dla <;> rcases dlon with _ | dlo <;>
    simp [getMesh, ht]

/-- C10 witness: time step 24 of the 24-step dataset with only the latitude
supplied raises the out-of-range error, not the ambiguity error. -/
theorem C10_time_check_precedence_witness :
    getMesh u100grid 24 (some 40) none none none = .error .outOfRange ∧
      getMesh u100grid 24 (some 40) none none none ≠
        .error .ambiguousRegion :=
  C10_time_check_precedence u100grid 24 (some 40) none none none
    (by norm_num [u100grid]) (by norm_num [suppliedCount])

theorem length_pySlice {α : Type} (xs : List α) (a b : ℤ) :
    (pySlice xs a b).length =
      min (pySliceBound xs.length b - pySliceBound xs.length a)
        (xs.length - pySliceBound xs.length a) := by
  simp [pySlice, List.length_take, List.length_drop]

theorem length_pySlice_congr {α β : Type} {xs : List α} {ys : List β}
    (h : xs.length = ys.length) (a b : ℤ) :
    (pySlice xs a b).length = (pySlice ys a b).length := by
  rw [length_pySlice, length_pySlice, h]

theorem mem_of_mem_pySlice {α : Type} {xs : List α} {a b : ℤ} {x : α}
    (h : x ∈ pySlice xs a b) : x ∈ xs :=
  (List.drop_sublist _ _).subset ((List.take_sublist _ _).subset h)

theorem pyIndex_mem {α : Type} {xs : List α} {i : ℤ} {x : α}
    (h : pyIndex xs i = some x) : x ∈ xs := by
  simp only [pyIndex] at h
  split at h
  · exact List.get?_mem h
  · split at h
    · exact List.get?_mem h
    · exact absurd h (by simp)

/-- The well-formedness assumption on a decoded dataset: every time layer
of the field array has one row per latitude value and one column per
longitude value. -/
def WellFormed (ds : DataSet) : Prop :=
  ∀ layer ∈ ds.field, layer.length = ds.latitude.length ∧
    ∀ row ∈ layer, row.length = ds.longitude.length

/-- C6: a successful getMesh call returns mutually consistent shapes: the
field mesh has one row per returned latitude value and every row has one
entry per returned longitude value, assuming the dataset is well formed. -/
theorem C6_shape_consistency (ds : DataSet) (t : ℤ)
    (lat lon dlat dlon : Option ℚ) (lm lom : List ℚ) (fm : List (List ℚ))
    (hwf : WellFormed ds)
    (h : getMesh ds t lat lon dlat dlon = .ok (lm, lom, fm)) :
    fm.length = lm.length ∧ ∀ row ∈ fm, row.length = lom.length := by
  by_cases hts : ds.time_steps ≤ t
  · rcases lat with _ | la <;> rcases lon with _ | lo <;>
        rcases dlat with _ | dla <;> rcases dlon with _ | dlo <;>
      simp [getMesh, hts] at h
  · rcases lat with _ | la <;> rcases lon with _ | lo <;>
        rcases dlat with _ | dla <;> rcases dlon with _ | dlo <;>
      cases hpi : pyIndex ds.field t <;>
      simp [getMesh, hts, hpi] at h
    · obtain ⟨hlm, hlom, hfm⟩ := h
      subst hlm; subst hlom; subst hfm
      exact hwf _ (pyIndex_mem hpi)
    · obtain ⟨hlm, hlom, hfm⟩ := h
      subst hlm; subst hlom; subst hfm
      obtain ⟨hlen, hrow⟩ := hwf _ (pyIndex_mem hpi)
      constructor
      · rw [List.length_map]
        exact length_pySlice_congr hlen _ _
      · intro row hr
        obtain ⟨orig, ho, rfl⟩ := List.mem_map.mp hr
        exact length_pySlice_congr (hrow _ (mem_of_mem_pySlice ho)) _ _

/-- A small concrete well-formed dataset: one latitude, two longitudes, one
time layer. -/
def ds0 : DataSet := ⟨[0], [1, 2], [[[5, 6]]], 1, "t2m"⟩

/-- C6 witness: the shape-consistency theorem applied to a whole-grid query
on the concrete dataset ds0. -/
theorem C6_shape_consistency_witness :
    ([[(5 : ℚ), 6]] : List (List ℚ)).length = ([(0 : ℚ)] : List ℚ).length ∧
      ∀ row ∈ ([[(5 : ℚ), 6]] : List (List ℚ)),
        row.length = ([(1 : ℚ), 2] : List ℚ).length :=
  C6_shape_consistency ds0 0 none none none none [0] [1, 2] [[5, 6]]
    (by simp [WellFormed, ds0]) rfl

/-- A decoded source file as handed over by the external grib decoder:
the coordinate arrays and the field array of one climate variable. -/
structure RawGrid where
  latitude : List ℚ
  longitude : List ℚ
  field : List (List (List ℚ))

/-- The diagnostics the Visualize methods can raise. The first two are
RuntimeErrors the source raises explicitly; the last three are builtin
Python exceptions its statements trigger (a missing attribute, a missing
dict key, subscripting a dict_keys object). -/
inductive VisError
  | unsupportedMode
  | datasetCountMismatch
  | attributeError
  | keyError
  | typeError
deriving DecidableEq

/-- The attributes Visualize.__init__ assigns on self. The mode argument is
checked in __init__ but never stored, so the mode attribute of a
constructed object is modelled as an Option that __init__ leaves at none
(reading it then raises AttributeError). Directory-path attributes and the
projection are omitted: they are filesystem/plotting collaborator state
with no bearing on the claims. -/
structure Visualize where
  datasets : List (String × DataSet)
  size : ℕ
  task_name : String
  time_steps : Option (List (String × ℤ))
  mode : Option String

/-- Python dict lookup d[k] on an insertion-ordered association list,
returning none where Python raises KeyError. -/
def dictGet {β : Type} (xs : List (String × β)) (k : String) : Option β :=
  match xs with
  | [] => none
  | (k2, v) :: rest => if k2 = k then some v else dictGet rest k

/-- The dataset-preparation loop of Visualize.__init__: for each entry of
data_paths (already decoded by the external grib decoder), look up its
declared time-step count (1 when no time_steps dict was given, KeyError
when the dict lacks the name) and register a DataSet under the name. -/
def buildDatasets (time_steps : Option (List (String × ℤ)))
    (data_paths : List (String × RawGrid)) :
    Except VisError (List (String × DataSet)) :=
  match data_paths with
  | [] => .ok []
  | (name, g) :: rest =>
    let step : Except VisError ℤ :=
      match time_steps with
      | none => .ok 1
      | some ts =>
        match dictGet ts name with
        | none => .error .keyError
        | some n => .ok n
    match step with
    | .error e => .error e
    | .ok n =>
      match buildDatasets time_steps rest with
      | .error e => .error e
      | .ok ds => .ok ((name, ⟨g.latitude, g.longitude, g.field, n, name⟩) :: ds)

/-- Visualize.__init__ from the source: record the bookkeeping attributes,
reject a mode other than "scalar" or "vector", then run the
dataset-preparation loop. Directory creation is an external filesystem
side effect and is not modelled. The constructed object carries
mode = none because the source never assigns self.mode. -/
def visInit (task_name : String) (data_paths : List (String × RawGrid))
    (mode : String) (time_steps : Option (List (String × ℤ))) :
    Except VisError Visualize :=
  if mode ≠ "scalar" ∧ mode ≠ "vector" then .error .unsupportedMode
  else
    match buildDatasets time_steps data_paths with
    | .error e => .error e
    | .ok ds => .ok ⟨ds, data_paths.length, task_name, time_steps, none⟩

/-- Visualize.populate_frame from the source, modelled up to its first
failing operation: it first reads self.mode (AttributeError, since
__init__ never assigns it); were the attribute present, it would check the
dataset count for the mode and then subscript self.datasets.keys()
(TypeError on a dict_keys object) before any plotting. -/
def populate_frame (v : Visualize) : Except VisError Unit :=
  match v.mode with
  | none => .error .attributeError
  | some m =>
    if m = "scalar" then
      if v.datasets.length ≠ 1 then .error .datasetCountMismatch
      else .error .typeError
    else
      if v.datasets.length ≠ 3 then .error .datasetCountMismatch
      else .error .typeError

/-- Visualize.animate_from_frames from the source, modelled up to its first
failing operation; its control flow opens exactly like populate_frame:
read self.mode, check the dataset count, subscript dict_keys. -/
def animate_from_frames (v : Visualize) : Except VisError Unit :=
  match v.mode with
  | none => .error .attributeError
  | some m =>
    if m = "scalar" then
      if v.datasets.length ≠ 1 then .error .datasetCountMismatch
      else .error .typeError
    else
      if v.datasets.length ≠ 3 then .error .datasetCountMismatch
      else .error .typeError

/-- A decoded grid for the Visualize construction scenarios. -/
def rawGrid0 : RawGrid := ⟨[90, 89.75], [-180, -179.75], [[[0, 0], [0, 0]]]⟩

/-- C2: on a Visualize constructed in scalar mode with two datasets (a
count the claim says must raise the dataset-count mismatch), both
populate_frame and animate_from_frames instead raise AttributeError,
because __init__ never assigns self.mode; the count check is unreachable. -/
theorem C2_mode_attribute_missing :
    (visInit "test" [("a", rawGrid0), ("b", rawGrid0)] "scalar" none).map
        (fun v => (v.datasets.length, v.mode, populate_frame v,
          animate_from_frames v)) =
      .ok (2, none, .error .attributeError, .error .attributeError) ∧
    .error .attributeError ≠
      (.error .datasetCountMismatch : Except VisError Unit) := by
  exact ⟨rfl, by simp⟩

theorem buildDatasets_ne_unsupported (time_steps : Option (List (String × ℤ)))
    (data_paths : List (String × RawGrid)) :
    buildDatasets time_steps data_paths ≠ .error .unsupportedMode := by
  induction data_paths with
  | nil => simp [buildDatasets]
  | cons hd tl ih =>
    obtain ⟨name, g⟩ := hd
    rcases time_steps with _ | ts
    · simp only [buildDatasets]
      cases hb : buildDatasets none tl <;> simp_all
    · simp only [buildDatasets]
      cases hdg : dictGet ts name <;>
        cases hb : buildDatasets (some ts) tl <;> simp_all

/-- C9: Visualize construction raises the unsupported-mode error exactly
when the mode is neither "scalar" nor "vector"; for those two modes the
construction never raises it (it may still fail on a missing time-step
key, a different error). -/
theorem C9_unsupported_mode (task : String) (data : List (String × RawGrid))
    (mode : String) (ts : Option (List (String × ℤ))) :
    visInit task data mode ts = .error .unsupportedMode ↔
      mode ≠ "scalar" ∧ mode ≠ "vector" := by
  rw [visInit]
  split
  · next hm => simp [hm]
  · next hm =>
    cases hb : buildDatasets ts data with
    | error e =>
      simp only []
      constructor
      · intro h
        have : e = .unsupportedMode := by simpa using h
        exact absurd (this ▸ hb) (buildDatasets_ne_unsupported ts data)
      · intro h
        exact absurd h hm
    | ok ds =>
      simp only []
      constructor
      · intro h
        exact absurd h (by simp)
      · intro h
        exact absurd h hm

end ClimateSystem
